import Mathlib

/-!
Shallow embedding of the asynchronous design-job subsystem of the
fashion-ai-platform repository (`app/api/endpoints.py`, `app/db/models.py`,
`app/core/config.py`, `app/service/ai_services.py`, `app/service/tasks.py`).

External collaborators (the Celery result backend, the JSON decoder of the
Python standard library, the PIL image pipeline, uuid/time generation) are
modelled as explicit parameters; everything else is translated directly from
the source.
-/

/-- JSON-like values, the payloads stored in the `spec` JSON column and
returned by the generator adapter. -/
inductive JsonVal where
  | null
  | bool (b : Bool)
  | num (n : Int)
  | str (s : String)
  | arr (xs : List JsonVal)
  | obj (fields : List (String × JsonVal))
deriving Repr, Inhabited

/-- The `DesignStatus` enum of `app/db/models.py`. -/
inductive DesignStatus where
  | processing
  | completed
  | failed
deriving Repr, Inhabited

/-- The `.value` of a `DesignStatus` member (it is a `str` enum). -/
def DesignStatus.value : DesignStatus → String
  | .processing => "processing"
  | .completed => "completed"
  | .failed => "failed"

/-- A row of the `design_tasks` table (`DesignTask` in `app/db/models.py`).
`created_at` is an abstract timestamp. -/
structure DesignTask where
  design_id : String
  task_id : String
  description : String
  garment_type : String
  image_path : String
  spec : Option JsonVal
  status : DesignStatus
  created_at : Nat
deriving Repr, Inhabited

/-- The state of a Celery task as observed through `AsyncResult`:
`pending` means `task.ready()` is false; `success r` means `task.ready()`
and `task.successful()` with `task.result = r`; `failure` means
`task.ready()` but not `task.successful()`. -/
inductive CeleryState where
  | pending
  | success (result : JsonVal)
  | failure
deriving Repr, Inhabited

/-- First row of the table whose `task_id` column matches, as in
`db.query(DesignTask).filter(DesignTask.task_id == task_id).first()`. -/
def db_find : List DesignTask → String → Option DesignTask
  | [], _ => none
  | t :: rest, tid => if t.task_id = tid then some t else db_find rest tid

/-- Mutating the first row matching `task_id` and committing, as the ORM
session does for the single object returned by `.first()`. -/
def db_update_first (f : DesignTask → DesignTask) : List DesignTask → String → List DesignTask
  | [], _ => []
  | t :: rest, tid =>
      if t.task_id = tid then f t :: rest else t :: db_update_first f rest tid

/-- The write performed by `get_task_status` when the Celery task succeeded:
`design_task.status = DesignStatus.COMPLETED; design_task.spec = task.result`. -/
def markCompleted (r : JsonVal) (t : DesignTask) : DesignTask :=
  { t with status := .completed, spec := some r }

/-- The write performed by `get_task_status` when the Celery task failed:
`design_task.status = DesignStatus.FAILED` (the `spec` column is not touched). -/
def markFailed (t : DesignTask) : DesignTask :=
  { t with status := .failed }

/-- The status-poll store update as a single function of the observed Celery
state: the two terminal writes above, and no write when the task is not
ready. -/
def applyPoll (t : DesignTask) : CeleryState → DesignTask
  | .success r => markCompleted r t
  | .failure => markFailed t
  | .pending => t

/-- The JSON envelope returned by `get_task_status`: the body's `code` and
`message` fields plus the fields of `data` (all the route's `JSONResponse`s
are sent with HTTP transport status 200; `code` is the in-band status
channel). -/
structure StatusResponse where
  code : Nat
  message : String
  status : Option String
  design_id : Option String
  result : Option JsonVal
deriving Repr, Inhabited

/-- The `GET /task/task_id` handler `get_task_status` of
`app/api/endpoints.py` (lines 499-555): look the row up by Celery task id,
404 if absent; if the Celery task is ready, write the terminal status (and
on success the result) into the row and commit, then answer; otherwise
answer "processing" without writing.  Returns the response together with
the table after the handler ran. -/
def get_task_status (db : List DesignTask) (backend : String → CeleryState)
    (task_id : String) : StatusResponse × List DesignTask :=
  match db_find db task_id with
  | none =>
      ({ code := 404, message := "任务不存在", status := none,
         design_id := none, result := none }, db)
  | some design_task =>
      match backend task_id with
      | .success r =>
          ({ code := 200, message := "任务处理完成", status := some "completed",
             design_id := some design_task.design_id, result := some r },
           db_update_first (markCompleted r) db task_id)
      | .failure =>
          ({ code := 500, message := "任务处理失败", status := some "failed",
             design_id := some design_task.design_id, result := none },
           db_update_first markFailed db task_id)
      | .pending =>
          ({ code := 200, message := "任务处理中", status := some "processing",
             design_id := some design_task.design_id, result := none }, db)

/-- The module-level allow-list of `app/api/endpoints.py`. -/
def ALLOWED_CONTENT_TYPES : List String := ["image/jpeg", "image/png"]

/-- `Settings.MAX_FILE_SIZE` of `app/core/config.py`: `10 * 1024 * 1024`. -/
def MAX_FILE_SIZE : Nat := 10 * 1024 * 1024

/-- The `garment_types` enumeration returned by `get_meta_info`
(`app/api/endpoints.py` lines 385-393), as value/label pairs. -/
def garment_types : List (String × String) :=
  [("dress", "连衣裙"), ("shirt", "衬衫"), ("pants", "裤子"), ("coat", "外套"),
   ("tshirt", "T恤"), ("skirt", "半身裙"), ("jacket", "夹克")]

/-- The configured closed enumeration of garment-type values. -/
def garment_type_values : List String := garment_types.map Prod.fst

/-- Which `raise`/`except` site produced a non-200 submit response. -/
inductive SubmitError where
  | badType
  | tooLarge
  | serverError
deriving Repr, DecidableEq, Inhabited

/-- The JSON envelope returned by `create_ai_design` (`code` plus the fields
of `data`; every branch is an HTTP-200 `JSONResponse`). -/
structure SubmitResponse where
  code : Nat
  error : Option SubmitError
  design_id : Option String
  task_id : Option String
  preview_url : Option String
  status : Option String
deriving Repr, Inhabited

/-- Observable side effects of `create_ai_design`, in program order:
reading the upload into memory, persisting the processed image file,
enqueueing the Celery work item (`process_design_task.delay`), and the
`db.add`/`db.commit` of the new `DesignTask` row. -/
inductive SubmitEvent where
  | readBytes
  | writeFile (path : String)
  | enqueue (design_id : String) (description : String) (garment_type : String)
  | dbCommit (t : DesignTask)
deriving Repr, Inhabited

/-- `model_image.filename.split(".")[-1].lower() if model_image.filename
else "jpg"` (an empty filename is falsy in Python). -/
def file_ext (filename : String) : String :=
  if filename = "" then "jpg" else ((filename.splitOn ".").getLastD "").toLower

/-- The `POST /ai-design` handler `create_ai_design` of
`app/api/endpoints.py` (lines 408-496).  The inputs the handler draws from
its environment are explicit parameters: `design_id` (the generated
`design_ + uuid` name), `task_id` (the id Celery assigns to the enqueued
task), `pil_ok` (whether the PIL decode/resize/convert/save pipeline
succeeds on the uploaded bytes), `enqueue_ok` (whether
`process_design_task.delay` succeeds), and `now` (`datetime.utcnow()`).
Steps in source order: content-type check, read + size check, image
processing and save, Celery enqueue, DB insert + commit, 200 response.
Any exception after validation is caught by the generic handler (code 500).
Returns the response, the table afterwards, and the emitted events. -/
def create_ai_design (description : String) (garment_type : String)
    (content_type : String) (content_size : Nat) (filename : String)
    (design_id : String) (task_id : String) (pil_ok : Bool) (enqueue_ok : Bool)
    (now : Nat) (db : List DesignTask) :
    SubmitResponse × List DesignTask × List SubmitEvent :=
  if content_type ∈ ALLOWED_CONTENT_TYPES then
    if content_size > MAX_FILE_SIZE then
      ({ code := 400, error := some .tooLarge, design_id := none, task_id := none,
         preview_url := none, status := none }, db, [.readBytes])
    else
      let fname := design_id ++ "." ++ file_ext filename
      let file_path := "uploads/" ++ fname
      if pil_ok then
        if enqueue_ok then
          let new_task : DesignTask :=
            { design_id := design_id, task_id := task_id,
              description := description, garment_type := garment_type,
              image_path := file_path, spec := none, status := .processing,
              created_at := now }
          ({ code := 200, error := none, design_id := some design_id,
             task_id := some task_id,
             preview_url := some ("/api/v1/preview/image/" ++ fname),
             status := some "processing" },
           db ++ [new_task],
           [.readBytes, .writeFile file_path,
            .enqueue design_id description garment_type, .dbCommit new_task])
        else
          ({ code := 500, error := some .serverError, design_id := none,
             task_id := none, preview_url := none, status := none },
           db, [.readBytes, .writeFile file_path])
      else
        ({ code := 500, error := some .serverError, design_id := none,
           task_id := none, preview_url := none, status := none },
         db, [.readBytes])
  else
    ({ code := 400, error := some .badType, design_id := none, task_id := none,
       preview_url := none, status := none }, db, [])

/-- Whether a submit event is the Celery enqueue. -/
def isEnqueueEvent : SubmitEvent → Bool
  | .enqueue _ _ _ => true
  | _ => false

/-- Whether a submit event is the DB insert/commit of the job row. -/
def isCommitEvent : SubmitEvent → Bool
  | .dbCommit _ => true
  | _ => false

/-- Whether a submit event persists bytes to the artifact store. -/
def isWriteFileEvent : SubmitEvent → Bool
  | .writeFile _ => true
  | _ => false

/-- Python truthiness of a JSON value, as applied by `bool(task.spec)`:
`None`, `False`, `0`, `""`, `[]` and `{}` are falsy. -/
def jsonTruthy : JsonVal → Bool
  | .null => false
  | .bool b => b
  | .num n => n != 0
  | .str s => !s.isEmpty
  | .arr xs => !xs.isEmpty
  | .obj fields => !fields.isEmpty

/-- `os.path.basename` on the slash-separated paths this app builds: the
part of the path after its last slash. -/
def basename (p : String) : String :=
  String.mk ((p.data.reverse.takeWhile (fun c => c != '/')).reverse)

/-- One element of the `items` array built by `get_design_history`. -/
structure HistoryItem where
  design_id : String
  garment_type : String
  description : String
  status : String
  created_at : Nat
  preview_url : String
  has_result : Bool
deriving Repr, DecidableEq, Inhabited

/-- The item `get_design_history` formats from a row. -/
def toHistoryItem (t : DesignTask) : HistoryItem :=
  { design_id := t.design_id, garment_type := t.garment_type,
    description := t.description, status := t.status.value,
    created_at := t.created_at,
    preview_url := "/api/v1/preview/image/" ++ basename t.image_path,
    has_result := (t.spec.map jsonTruthy).getD false }

/-- Insert a row into a list already sorted by `created_at` descending. -/
def insertByCreatedAtDesc (t : DesignTask) : List DesignTask → List DesignTask
  | [] => [t]
  | u :: rest =>
      if u.created_at ≤ t.created_at then t :: u :: rest
      else u :: insertByCreatedAtDesc t rest

/-- `order_by(DesignTask.created_at.desc())`: the rows sorted by creation
time descending.  The relative order of rows with equal `created_at` is not
specified by the SQL query; this model makes one concrete choice. -/
def sortByCreatedAtDesc : List DesignTask → List DesignTask
  | [] => []
  | t :: rest => insertByCreatedAtDesc t (sortByCreatedAtDesc rest)

/-- The JSON envelope returned by `get_design_history` (`code`, `data.items`
and the `data.pagination` block). -/
structure HistoryResponse where
  code : Nat
  items : List HistoryItem
  total : Nat
  page : Int
  page_size : Nat
  total_pages : Nat
deriving Repr, DecidableEq, Inhabited

/-- The `GET /designs` handler `get_design_history` of
`app/api/endpoints.py` (lines 558-609): coerce `page` to at least 1, compute
`offset = (page-1)*page_size`, count all rows, take the requested window of
the rows ordered by creation time descending, and format each row.
`page_size` is taken as given (the route declares it as a plain `int`
parameter with default 10 and no bound); the model covers the non-negative
sizes. -/
def get_design_history (page : Int) (page_size : Nat) (db : List DesignTask) :
    HistoryResponse :=
  let page := if page < 1 then 1 else page
  let offset := (page - 1).toNat * page_size
  let total := db.length
  let tasks := ((sortByCreatedAtDesc db).drop offset).take page_size
  { code := 200, items := tasks.map toHistoryItem, total := total,
    page := page, page_size := page_size,
    total_pages := (total + page_size - 1) / page_size }

/-- The fixed fallback returned by `QianwenService.parse_design_request`
when the model output is not valid JSON (`app/service/ai_services.py`
lines 41-46). -/
def default_design_spec : JsonVal :=
  .obj [("style", .str "现代简约"),
        ("colors", .arr [.str "黑色", .str "灰色"]),
        ("details", .str "根据需求生成的设计")]

/-- `QianwenService.parse_design_request` (`app/service/ai_services.py`
lines 21-46) after the external model call: `generated_text` is the
stripped text the model produced, and `json_loads` is the JSON decoder of
the Python standard library (external; `none` models a raised
`JSONDecodeError`).  On decode failure the fixed default spec is returned;
no exception escapes. -/
def parse_design_request (json_loads : String → Option JsonVal)
    (generated_text : String) : JsonVal :=
  match json_loads generated_text with
  | some v => v
  | none => default_design_spec

/-- The Celery task body `process_design_task` (`app/service/tasks.py`): it
builds the service, parses the request and returns the result, so the task
return value is exactly the parse result. -/
def process_design_task (json_loads : String → Option JsonVal)
    (generated_text : String) : JsonVal :=
  parse_design_request json_loads generated_text

/-- A concrete generator result used by concrete instances below. -/
def sampleSpec : JsonVal :=
  .obj [("style", .str "casual"), ("colors", .arr [.str "blue", .str "white"])]

/-- A job row still in the initial `Processing` state. -/
def processingJob : DesignTask :=
  { design_id := "design_1", task_id := "t1", description := "blue summer dress",
    garment_type := "dress", image_path := "uploads/design_1.jpg", spec := none,
    status := .processing, created_at := 1 }

/-- A job row already in the terminal `Failed` state. -/
def failedJob : DesignTask :=
  { design_id := "design_2", task_id := "t2", description := "red coat",
    garment_type := "coat", image_path := "uploads/design_2.jpg", spec := none,
    status := .failed, created_at := 2 }

/-- A job row already in the terminal `Completed` state, result present. -/
def completedJob : DesignTask :=
  { design_id := "design_3", task_id := "t3", description := "green skirt",
    garment_type := "skirt", image_path := "uploads/design_3.jpg",
    spec := some sampleSpec, status := .completed, created_at := 3 }

/-- A history row created at time `i`. -/
def mkHistoryJob (i : Nat) : DesignTask :=
  { design_id := "design_h" ++ toString i, task_id := "th" ++ toString i,
    description := "req", garment_type := "dress",
    image_path := "uploads/h.jpg", spec := none, status := .processing,
    created_at := i }

/-- Five jobs created at five distinct times, stored out of order. -/
def historyDb5 : List DesignTask :=
  [mkHistoryJob 2, mkHistoryJob 5, mkHistoryJob 1, mkHistoryJob 4, mkHistoryJob 3]

/-- One hundred and one jobs at distinct creation times. -/
def bigDb : List DesignTask := (List.range 101).map mkHistoryJob

/-- Looking a task id up after the first-match update rewrites the found row
through the update, provided the update leaves `task_id` alone. -/
theorem db_find_db_update_first (f : DesignTask → DesignTask)
    (hf : ∀ t, (f t).task_id = t.task_id) (db : List DesignTask) (tid : String) :
    db_find (db_update_first f db tid) tid = (db_find db tid).map f := by
  induction db with
  | nil => rfl
  | cons t rest ih =>
      by_cases h : t.task_id = tid
      · simp [db_update_first, db_find, h, hf t]
      · simp [db_update_first, db_find, h, ih]

/-- The first-match update is idempotent when its row function is. -/
theorem db_update_first_idem (f : DesignTask → DesignTask)
    (hf : ∀ t, (f t).task_id = t.task_id) (hff : ∀ t, f (f t) = f t)
    (db : List DesignTask) (tid : String) :
    db_update_first f (db_update_first f db tid) tid = db_update_first f db tid := by
  induction db with
  | nil => rfl
  | cons t rest ih =>
      by_cases h : t.task_id = tid
      · simp [db_update_first, h, hf t, hff t]
      · simp [db_update_first, h, ih]

/-- C1 counterexample: the terminal update of the status poll is not a
compare-and-set guarded on `state = Processing`, and no `AlreadyTerminal`
outcome exists.  On a row already in the terminal `Failed` state, a poll
whose Celery task reports success overwrites the terminal state with
`Completed` and answers "completed": the write succeeds although the
current state is not `Processing`. -/
theorem C1_counterexample :
    failedJob.status = .failed ∧
    (get_task_status [failedJob] (fun _ => .success sampleSpec) "t2").1.status
      = some "completed" ∧
    (db_find (get_task_status [failedJob] (fun _ => .success sampleSpec) "t2").2
        "t2").map DesignTask.status = some .completed :=
  ⟨rfl, rfl, rfl⟩

/-- C1 (amended): the status poll performs an unconditional terminal write,
but a duplicate poll observing the same Celery outcome is idempotent: it
returns the same response and leaves the store exactly as the first poll
left it, so the final job record equals the one produced by the first
write. -/
theorem C1_duplicate_poll_idempotent (db : List DesignTask)
    (backend : String → CeleryState) (tid : String) :
    get_task_status (get_task_status db backend tid).2 backend tid
      = get_task_status db backend tid := by
  cases hf : db_find db tid with
  | none => cases hb : backend tid <;> simp [get_task_status, hf, hb]
  | some dt =>
      cases hb : backend tid with
      | pending => simp [get_task_status, hf, hb]
      | success r =>
          have h1 : db_find (db_update_first (markCompleted r) db tid) tid
              = some (markCompleted r dt) := by
            rw [db_find_db_update_first (markCompleted r) (fun _ => rfl) db tid, hf]
            rfl
          simp [get_task_status, hf, hb, h1, markCompleted,
            db_update_first_idem (markCompleted r) (fun _ => rfl) (fun _ => rfl)
              db tid]
      | failure =>
          have h1 : db_find (db_update_first markFailed db tid) tid
              = some (markFailed dt) := by
            rw [db_find_db_update_first markFailed (fun _ => rfl) db tid, hf]
            rfl
          simp [get_task_status, hf, hb, h1, markFailed,
            db_update_first_idem markFailed (fun _ => rfl) (fun _ => rfl) db tid]

/-- C3 counterexample: the status poll is not a pure read.  Polling a
`Processing` job whose Celery task has succeeded mutates the job record:
its status becomes `Completed` and its `spec` column is written. -/
theorem C3_counterexample :
    processingJob.status = .processing ∧ processingJob.spec = none ∧
    (db_find (get_task_status [processingJob] (fun _ => .success sampleSpec) "t1").2
        "t1").map DesignTask.status = some .completed ∧
    (db_find (get_task_status [processingJob] (fun _ => .success sampleSpec) "t1").2
        "t1").map DesignTask.spec = some (some sampleSpec) :=
  ⟨rfl, rfl, rfl, rfl⟩

/-- C3 (amended): the status poll writes the terminal state into the job
store when the Celery task is ready; it leaves the store unchanged exactly
in the two remaining cases, an unknown job id and a task that is not yet
ready. -/
theorem C3_poll_write_only_when_ready (db : List DesignTask)
    (backend : String → CeleryState) (tid : String) :
    (db_find db tid = none → (get_task_status db backend tid).2 = db) ∧
    (backend tid = .pending → (get_task_status db backend tid).2 = db) := by
  constructor
  · intro h
    simp [get_task_status, h]
  · intro h
    cases hf : db_find db tid <;> simp [get_task_status, hf, h]

/-- C3 witness: on a concrete store and a pending Celery task, the poll
leaves the store unchanged. -/
theorem C3_witness :
    ((fun _ : String => CeleryState.pending) "t1" = CeleryState.pending) ∧
    (get_task_status [processingJob] (fun _ => CeleryState.pending) "t1").2
      = [processingJob] :=
  ⟨rfl, (C3_poll_write_only_when_ready [processingJob]
      (fun _ => CeleryState.pending) "t1").2 rfl⟩

/-- C4 counterexample: when the Celery task for a job failed, the poll does
record the job as `Failed` and does put `status = "failed"` in `data`, but
the response envelope signals an error: its `code` field is 500, the same
error-class code the API uses for server failures, not the success code
200. -/
theorem C4_counterexample :
    (get_task_status [processingJob] (fun _ => .failure) "t1").1.status
      = some "failed" ∧
    (get_task_status [processingJob] (fun _ => .failure) "t1").1.code = 500 ∧
    ¬ (get_task_status [processingJob] (fun _ => .failure) "t1").1.code = 200 :=
  ⟨rfl, rfl, by decide⟩

/-- C4 (amended): polling a known job whose Celery task failed marks the job
`Failed` in the store and answers with `data.status = "failed"`, but inside
an envelope whose `code` is 500 (message "任务处理失败"); the error-class
code is surfaced to the poller even though the poll itself succeeded. -/
theorem C4_failed_poll_response (db : List DesignTask)
    (backend : String → CeleryState) (tid : String) (dt : DesignTask)
    (h1 : db_find db tid = some dt) (h2 : backend tid = .failure) :
    (get_task_status db backend tid).1
      = { code := 500, message := "任务处理失败", status := some "failed",
          design_id := some dt.design_id, result := none } ∧
    db_find (get_task_status db backend tid).2 tid = some (markFailed dt) := by
  refine ⟨by simp [get_task_status, h1, h2], ?_⟩
  simp only [get_task_status, h1, h2]
  rw [db_find_db_update_first markFailed (fun _ => rfl) db tid, h1]
  rfl

/-- C4 witness: the amended statement at a concrete store and backend. -/
theorem C4_witness :
    (db_find [processingJob] "t1" = some processingJob) ∧
    ((fun _ : String => CeleryState.failure) "t1" = CeleryState.failure) ∧
    ((get_task_status [processingJob] (fun _ => CeleryState.failure) "t1").1
        = { code := 500, message := "任务处理失败", status := some "failed",
            design_id := some processingJob.design_id, result := none } ∧
     db_find (get_task_status [processingJob] (fun _ => CeleryState.failure) "t1").2
        "t1" = some (markFailed processingJob)) :=
  ⟨rfl, rfl, C4_failed_poll_response [processingJob]
      (fun _ => CeleryState.failure) "t1" processingJob rfl rfl⟩

/-- C8 counterexample: the store update of the poll does not preserve the
claimed invariant on an already-terminal record.  Applied to a `Completed`
row holding a result while the Celery backend reports failure, the poll
moves the row out of `Completed` into `Failed` and leaves the result set,
violating both the monotonicity clause and the clause that `result` is set
only when the state is `Completed`. -/
theorem C8_counterexample :
    completedJob.status = .completed ∧ completedJob.spec = some sampleSpec ∧
    (db_find (get_task_status [completedJob] (fun _ => .failure) "t3").2
        "t3").map DesignTask.status = some .failed ∧
    (db_find (get_task_status [completedJob] (fun _ => .failure) "t3").2
        "t3").map DesignTask.spec = some (some sampleSpec) :=
  ⟨rfl, rfl, rfl, rfl⟩

/-- C8 (amended): starting from a freshly created record (`Processing`, no
result), one poll write yields a record satisfying `result` set iff state
`Completed`; repeating the write with the same Celery outcome changes
nothing further; and the only possible moves are staying `Processing`
(task not ready, record untouched) or entering a terminal state.  The
unguarded write preserves the invariant only from such records, not from
arbitrary ones. -/
theorem C8_invariant_from_processing (t : DesignTask) (st : CeleryState)
    (h1 : t.status = .processing) (h2 : t.spec = none) :
    ((applyPoll t st).spec.isSome ↔ (applyPoll t st).status = .completed) ∧
    applyPoll (applyPoll t st) st = applyPoll t st ∧
    ((applyPoll t st).status = .processing → applyPoll t st = t) := by
  cases st <;> simp [applyPoll, markCompleted, markFailed, h1, h2]

/-- C8 witness: the amended statement at a concrete fresh record and a
failed task outcome. -/
theorem C8_witness :
    processingJob.status = .processing ∧ processingJob.spec = none ∧
    (((applyPoll processingJob .failure).spec.isSome
        ↔ (applyPoll processingJob .failure).status = .completed) ∧
     applyPoll (applyPoll processingJob .failure) .failure
        = applyPoll processingJob .failure ∧
     ((applyPoll processingJob .failure).status = .processing →
        applyPoll processingJob .failure = processingJob)) :=
  ⟨rfl, rfl, C8_invariant_from_processing processingJob .failure rfl rfl⟩

/-- C2 counterexample: in a concrete successful submit the Celery enqueue
is event 2 and the job-row insert/commit is event 3 of the handler's
effect trace, so the Work Item is enqueued before the Job row exists,
the reverse of the claimed order. -/
theorem C2_counterexample :
    (create_ai_design "blue summer dress" "dress" "image/jpeg" 1024 "ref.png"
        "design_1" "t1" true true 7 []).1.code = 200 ∧
    (create_ai_design "blue summer dress" "dress" "image/jpeg" 1024 "ref.png"
        "design_1" "t1" true true 7 []).2.2.findIdx isEnqueueEvent = 2 ∧
    (create_ai_design "blue summer dress" "dress" "image/jpeg" 1024 "ref.png"
        "design_1" "t1" true true 7 []).2.2.findIdx isCommitEvent = 3 ∧
    2 < 3 :=
  ⟨rfl, rfl, rfl, by decide⟩

/-- C2 (amended): in every successful submit the effect order is read,
image save, Celery enqueue, then job-row commit — the Work Item is
enqueued strictly before the Job row is created and committed; and when
the enqueue fails after the image was saved, the handler answers with
code 500 and creates no Job row at all, so no job is marked `Failed` and
none is left `Processing`. -/
theorem C2_enqueue_precedes_commit (desc gt ct : String) (size : Nat)
    (fn did tid : String) (now : Nat) (db : List DesignTask)
    (h1 : ct ∈ ALLOWED_CONTENT_TYPES) (h2 : size ≤ MAX_FILE_SIZE) :
    (create_ai_design desc gt ct size fn did tid true true now db).2.2
      = [.readBytes, .writeFile ("uploads/" ++ (did ++ "." ++ file_ext fn)),
         .enqueue did desc gt,
         .dbCommit { design_id := did, task_id := tid, description := desc,
                     garment_type := gt,
                     image_path := "uploads/" ++ (did ++ "." ++ file_ext fn),
                     spec := none, status := .processing, created_at := now }] ∧
    (create_ai_design desc gt ct size fn did tid true true now db).2.1
      = db ++ [{ design_id := did, task_id := tid, description := desc,
                 garment_type := gt,
                 image_path := "uploads/" ++ (did ++ "." ++ file_ext fn),
                 spec := none, status := .processing, created_at := now }] ∧
    (create_ai_design desc gt ct size fn did tid true false now db).1.code = 500 ∧
    (create_ai_design desc gt ct size fn did tid true false now db).2.1 = db := by
  have hs : ¬ (size > MAX_FILE_SIZE) := by omega
  simp [create_ai_design, h1, hs]

/-- C2 witness: the amended statement at a concrete submit. -/
theorem C2_witness :
    ("image/png" ∈ ALLOWED_CONTENT_TYPES) ∧ (64 ≤ MAX_FILE_SIZE) ∧
    ((create_ai_design "d" "dress" "image/png" 64 "a.jpg" "d1" "t1" true true
          0 []).2.2
        = [.readBytes, .writeFile ("uploads/" ++ ("d1" ++ "." ++ file_ext "a.jpg")),
           .enqueue "d1" "d" "dress",
           .dbCommit { design_id := "d1", task_id := "t1", description := "d",
                       garment_type := "dress",
                       image_path := "uploads/" ++ ("d1" ++ "." ++ file_ext "a.jpg"),
                       spec := none, status := .processing, created_at := 0 }] ∧
     (create_ai_design "d" "dress" "image/png" 64 "a.jpg" "d1" "t1" true true
          0 []).2.1
        = [] ++ [{ design_id := "d1", task_id := "t1", description := "d",
                   garment_type := "dress",
                   image_path := "uploads/" ++ ("d1" ++ "." ++ file_ext "a.jpg"),
                   spec := none, status := .processing, created_at := 0 }] ∧
     (create_ai_design "d" "dress" "image/png" 64 "a.jpg" "d1" "t1" true false
          0 []).1.code = 500 ∧
     (create_ai_design "d" "dress" "image/png" 64 "a.jpg" "d1" "t1" true false
          0 []).2.1 = []) :=
  ⟨by decide, by decide, C2_enqueue_precedes_commit "d" "dress" "image/png" 64
      "a.jpg" "d1" "t1" 0 [] (by decide) (by decide)⟩

/-- C5 counterexample: a submit whose category "spaceship" is outside the
configured garment-type enumeration and whose description is empty is not
rejected: it answers code 200 and creates a job carrying exactly those
values. -/
theorem C5_counterexample :
    ¬ ("spaceship" ∈ garment_type_values) ∧
    (create_ai_design "" "spaceship" "image/jpeg" 4 "a.jpg" "d9" "t9" true true
        3 []).1.code = 200 ∧
    (create_ai_design "" "spaceship" "image/jpeg" 4 "a.jpg" "d9" "t9" true true
        3 []).2.1.map DesignTask.garment_type = ["spaceship"] ∧
    (create_ai_design "" "spaceship" "image/jpeg" 4 "a.jpg" "d9" "t9" true true
        3 []).2.1.map DesignTask.description = [""] ∧
    (create_ai_design "" "spaceship" "image/jpeg" 4 "a.jpg" "d9" "t9" true true
        3 []).2.1.map DesignTask.status = [.processing] :=
  ⟨by decide, rfl, rfl, rfl, rfl⟩

/-- C5 (amended): the submit handler validates only the upload.  For every
description and every category string whatsoever, a request whose content
type is allowed and whose size is within the limit succeeds with code 200
and creates the job; no category-enumeration or description-non-emptiness
check exists. -/
theorem C5_no_category_description_validation (desc gt ct : String)
    (size : Nat) (fn did tid : String) (now : Nat) (db : List DesignTask)
    (h1 : ct ∈ ALLOWED_CONTENT_TYPES) (h2 : size ≤ MAX_FILE_SIZE) :
    (create_ai_design desc gt ct size fn did tid true true now db).1.code = 200 ∧
    (create_ai_design desc gt ct size fn did tid true true now db).1.status
      = some "processing" ∧
    (create_ai_design desc gt ct size fn did tid true true now db).2.1
      = db ++ [{ design_id := did, task_id := tid, description := desc,
                 garment_type := gt,
                 image_path := "uploads/" ++ (did ++ "." ++ file_ext fn),
                 spec := none, status := .processing, created_at := now }] := by
  have hs : ¬ (size > MAX_FILE_SIZE) := by omega
  simp [create_ai_design, h1, hs]

/-- C5 witness: the amended statement at an out-of-enumeration category and
an empty description. -/
theorem C5_witness :
    ("image/jpeg" ∈ ALLOWED_CONTENT_TYPES) ∧ (4 ≤ MAX_FILE_SIZE) ∧
    ((create_ai_design "" "zzz" "image/jpeg" 4 "a.jpg" "d8" "t8" true true
          0 []).1.code = 200 ∧
     (create_ai_design "" "zzz" "image/jpeg" 4 "a.jpg" "d8" "t8" true true
          0 []).1.status = some "processing" ∧
     (create_ai_design "" "zzz" "image/jpeg" 4 "a.jpg" "d8" "t8" true true
          0 []).2.1
        = [] ++ [{ design_id := "d8", task_id := "t8", description := "",
                   garment_type := "zzz",
                   image_path := "uploads/" ++ ("d8" ++ "." ++ file_ext "a.jpg"),
                   spec := none, status := .processing, created_at := 0 }]) :=
  ⟨by decide, by decide, C5_no_category_description_validation "" "zzz"
      "image/jpeg" 4 "a.jpg" "d8" "t8" 0 [] (by decide) (by decide)⟩

/-- C6: an upload whose declared content type is outside the allow-list is
rejected with the type error and an empty effect trace — no bytes read, no
file written, no job created — for every size, so the type check precedes
the size check and nothing is persisted. -/
theorem C6_type_check_first_nothing_persisted (desc gt ct : String)
    (size : Nat) (fn did tid : String) (pil enq : Bool) (now : Nat)
    (db : List DesignTask) (h : ¬ (ct ∈ ALLOWED_CONTENT_TYPES)) :
    create_ai_design desc gt ct size fn did tid pil enq now db
      = ({ code := 400, error := some .badType, design_id := none,
           task_id := none, preview_url := none, status := none }, db, []) := by
  simp [create_ai_design, h]

/-- C6 witness: a disallowed type that is also oversized is rejected with
the type error, store untouched, no events. -/
theorem C6_witness :
    ¬ ("text/plain" ∈ ALLOWED_CONTENT_TYPES) ∧
    create_ai_design "d" "dress" "text/plain" (MAX_FILE_SIZE + 1) "a.jpg" "d1"
        "t1" true true 0 []
      = ({ code := 400, error := some .badType, design_id := none,
           task_id := none, preview_url := none, status := none }, [], []) :=
  ⟨by decide, C6_type_check_first_nothing_persisted "d" "dress" "text/plain"
      (MAX_FILE_SIZE + 1) "a.jpg" "d1" "t1" true true 0 [] (by decide)⟩

/-- C7: for an allowed content type, an upload strictly larger than
`MAX_FILE_SIZE` is rejected with the size error and creates no job, while
an upload of exactly `MAX_FILE_SIZE` bytes passes validation and the
submit succeeds, adding one job row. -/
theorem C7_size_limit_boundary (desc gt ct fn did tid : String) (now : Nat)
    (db : List DesignTask) (h1 : ct ∈ ALLOWED_CONTENT_TYPES) :
    (∀ size : Nat, MAX_FILE_SIZE < size →
        create_ai_design desc gt ct size fn did tid true true now db
          = ({ code := 400, error := some .tooLarge, design_id := none,
               task_id := none, preview_url := none, status := none },
             db, [.readBytes])) ∧
    (create_ai_design desc gt ct MAX_FILE_SIZE fn did tid true true now db).1.code
      = 200 ∧
    (create_ai_design desc gt ct MAX_FILE_SIZE fn did tid true true now db).1.error
      = none ∧
    (create_ai_design desc gt ct MAX_FILE_SIZE fn did tid true true
        now db).2.1.length = db.length + 1 := by
  have hs : ¬ (MAX_FILE_SIZE > MAX_FILE_SIZE) := by omega
  refine ⟨fun size hsize => by simp [create_ai_design, h1, hsize], ?_, ?_, ?_⟩ <;>
    simp [create_ai_design, h1, hs]

/-- C7 witness: one byte over the limit is rejected; exactly at the limit
the submit succeeds. -/
theorem C7_witness :
    ("image/jpeg" ∈ ALLOWED_CONTENT_TYPES) ∧
    (MAX_FILE_SIZE < MAX_FILE_SIZE + 1) ∧
    create_ai_design "d" "dress" "image/jpeg" (MAX_FILE_SIZE + 1) "a.jpg" "d7"
        "t7" true true 0 []
      = ({ code := 400, error := some .tooLarge, design_id := none,
           task_id := none, preview_url := none, status := none },
         [], [.readBytes]) ∧
    (create_ai_design "d" "dress" "image/jpeg" MAX_FILE_SIZE "a.jpg" "d7" "t7"
        true true 0 []).1.code = 200 ∧
    (create_ai_design "d" "dress" "image/jpeg" MAX_FILE_SIZE "a.jpg" "d7" "t7"
        true true 0 []).1.error = none ∧
    (create_ai_design "d" "dress" "image/jpeg" MAX_FILE_SIZE "a.jpg" "d7" "t7"
        true true 0 []).2.1.length = List.length ([] : List DesignTask) + 1 :=
  ⟨by decide, by decide,
   (C7_size_limit_boundary "d" "dress" "image/jpeg" "a.jpg" "d7" "t7" 0 []
      (by decide)).1 (MAX_FILE_SIZE + 1) (by decide),
   (C7_size_limit_boundary "d" "dress" "image/jpeg" "a.jpg" "d7" "t7" 0 []
      (by decide)).2.1,
   (C7_size_limit_boundary "d" "dress" "image/jpeg" "a.jpg" "d7" "t7" 0 []
      (by decide)).2.2.1,
   (C7_size_limit_boundary "d" "dress" "image/jpeg" "a.jpg" "d7" "t7" 0 []
      (by decide)).2.2.2⟩

/-- C9 counterexample: `page_size` is not bounded by any maximum.  A single
request for a page of 101 items — more than the 100-item cap every bounded
listing endpoint of this app uses — is served in full: the limit is applied
exactly as supplied. -/
theorem C9_counterexample :
    100 < 101 ∧
    (get_design_history 1 101 bigDb).page_size = 101 ∧
    (get_design_history 1 101 bigDb).items.length = 101 :=
  ⟨by decide, rfl, by decide⟩

/-- C9 (amended): results are ordered by creation time descending (the
relative order of equal creation times is left unspecified by the query);
`page` is coerced to at least 1; `page_size` is applied as given with no
maximum; and over 5 jobs created at distinct times, page 1 of size 2 holds
the 2 most-recently-created jobs with total 5 while page 3 of size 2 holds
the 1 oldest job. -/
theorem C9_pagination :
    (∀ (page : Int) (ps : Nat) (db : List DesignTask), page < 1 →
        get_design_history page ps db = get_design_history 1 ps db) ∧
    (get_design_history 1 2 historyDb5).items
      = [toHistoryItem (mkHistoryJob 5), toHistoryItem (mkHistoryJob 4)] ∧
    (get_design_history 1 2 historyDb5).total = 5 ∧
    (get_design_history 3 2 historyDb5).items = [toHistoryItem (mkHistoryJob 1)] ∧
    (get_design_history 3 2 historyDb5).total = 5 := by
  refine ⟨fun page ps db h => by simp [get_design_history, h], ?_, ?_, ?_, ?_⟩ <;>
    decide

/-- C9 witness: page 0 and below are coerced to page 1 on a concrete
store. -/
theorem C9_witness :
    ((-3 : Int) < 1) ∧
    get_design_history (-3) 7 historyDb5 = get_design_history 1 7 historyDb5 :=
  ⟨by decide, C9_pagination.1 (-3) 7 historyDb5 (by decide)⟩

/-- C10: when the generator model's text output is not parseable as JSON,
`parse_design_request` returns the fixed default spec instead of failing,
the Celery task body returns that same value (so the task succeeds rather
than reporting a generation failure), and the status poll's completion
write then marks the job `Completed` carrying the canned default as its
result. -/
theorem C10_default_on_unparseable (json_loads : String → Option JsonVal)
    (generated_text : String) (t : DesignTask)
    (h : json_loads generated_text = none) :
    parse_design_request json_loads generated_text = default_design_spec ∧
    process_design_task json_loads generated_text = default_design_spec ∧
    applyPoll t (.success (process_design_task json_loads generated_text))
      = { t with status := .completed, spec := some default_design_spec } := by
  simp [parse_design_request, process_design_task, applyPoll, markCompleted, h]

/-- C10 witness: a concrete unparseable model output yields the default
spec and completes a concrete job with it. -/
theorem C10_witness :
    ((fun _ : String => (none : Option JsonVal)) "not json" = none) ∧
    (parse_design_request (fun _ => none) "not json" = default_design_spec ∧
     process_design_task (fun _ => none) "not json" = default_design_spec ∧
     applyPoll processingJob
        (.success (process_design_task (fun _ => none) "not json"))
       = { processingJob with
           status := .completed, spec := some default_design_spec }) :=
  ⟨rfl, C10_default_on_unparseable (fun _ => none) "not json" processingJob rfl⟩
